import Mathlib

/-!
# Welcome page (`src/pages/welcome.js`)

A shallow embedding of the two React components of the page:

* `WelcomePage` with its mount effect `checkSession` and the `handleLogout` handler;
* `WouldYouRather` with `generateQuestion` and `handleChoice`.

Component state, the notification service, the router, the console and the timer queue are
one explicit record, `Page`, that every handler transforms.  An `async` function returns the
final record together with its completion: normal, or the value it rejected with.
The network is the environment: the outcome of each awaited request is an argument.
`Math.random()` is an argument as well, a binary64 value in `[0, 1)`.
-/

namespace Welcome

/-! ## JavaScript values -/

/-- Primitive values, as far as the page inspects them (`data.valid`). -/
inductive JsPrim where
  | undefined
  | null
  | bool (b : Bool)
  | num (n : Int)
  | str (s : String)
  deriving DecidableEq, Repr

/-- Truthiness of a primitive value (`!data.valid`). -/
def JsPrim.truthy : JsPrim → Bool
  | .undefined => false
  | .null => false
  | .bool b => b
  | .num n => n != 0
  | .str s => s != ""

/-- The `user` object of a session payload. -/
structure User where
  username : String
  deriving DecidableEq, Repr

/-- The body of a `GET /api/session` response: `{ valid, user: { username }, token }`. -/
structure SessionInfo where
  valid : JsPrim
  user : User
  token : String
  deriving DecidableEq, Repr

/-- The `response` object an HTTP-level failure carries; only `status` is read. -/
structure HttpResponse where
  status : Nat
  deriving DecidableEq, Repr

/-- A caught error object: the three properties the `catch` block reads.
`none` stands for a property that is absent (`undefined`). -/
structure JsError where
  response : Option HttpResponse
  code : Option String
  message : Option String
  deriving DecidableEq, Repr

/-- The object built by `new Error(text)`: a message and nothing else. -/
def newError (text : String) : JsError :=
  { response := none, code := none, message := some text }

/-- The `TypeError` raised by reading property `prop` of `undefined`. -/
def typeErrorReading (prop : String) : JsError :=
  newError ("Cannot read properties of undefined (reading " ++ prop ++ ")")

/-! ## `String.prototype.includes` -/

/-- Does `text` begin with `pat`? -/
def startsWith : List Char → List Char → Bool
  | [], _ => true
  | _ :: _, [] => false
  | p :: ps, c :: cs => p == c && startsWith ps cs

/-- Does `pat` occur in the text at some position? -/
def includesChars (pat : List Char) : List Char → Bool
  | [] => startsWith pat []
  | c :: cs => startsWith pat (c :: cs) || includesChars pat cs

/-- The call `s.includes(pat)`.  JavaScript compares UTF-16 code units and this compares code
points; the two agree for a pattern without surrogate pairs, such as `"Network Error"`. -/
def includes (s pat : String) : Bool :=
  includesChars pat.data s.data

/-! ## Localized messages (`useMessages`) -/

/-- The object `messages.error`; a key that is missing reads as `undefined`. -/
structure ErrorMessages where
  server_error : Option String
  session_not_found : Option String
  server_timeout : Option String
  server_unavailable : Option String
  deriving DecidableEq, Repr

/-- The object `messages.auth`. -/
structure AuthMessages where
  logout_success : Option String
  logout_button : Option String
  deriving DecidableEq, Repr

/-- The object `messages.welcome`. -/
structure WelcomeMessages where
  user_label : Option String
  session_expired : Option String
  deriving DecidableEq, Repr

/-- The value returned by the `useMessages` hook.  A group that is missing reads as
`undefined`, which the optional chaining `messages.error?.key` lets through. -/
structure Messages where
  error : Option ErrorMessages
  auth : Option AuthMessages
  welcome : Option WelcomeMessages
  deriving DecidableEq, Repr

/-- The expression `messages.error?.key`. -/
def Messages.errorKey (messages : Messages) (key : ErrorMessages → Option String) :
    Option String :=
  messages.error.bind key

/-- The expression `messages.auth?.key`. -/
def Messages.authKey (messages : Messages) (key : AuthMessages → Option String) :
    Option String :=
  messages.auth.bind key

/-- The expression `messages.welcome?.key`. -/
def Messages.welcomeKey (messages : Messages) (key : WelcomeMessages → Option String) :
    Option String :=
  messages.welcome.bind key

/-! ## The page: component state and the services it calls -/

/-- The two arrow functions handed to `setTimeout`. -/
inductive Callback where
  | routerPush (path : String)
  | setIsLoading (b : Bool)
  deriving DecidableEq, Repr

/-- One `setTimeout(callback, delay)` call, delay in milliseconds. -/
structure Timer where
  callback : Callback
  delay : Nat
  deriving DecidableEq, Repr

/-- One notification: `toast.error(text)` or `toast.info(text)`. -/
inductive Toast where
  | error (text : Option String)
  | info (text : Option String)
  deriving DecidableEq, Repr

/-- One request issued through `axiosInstance`. -/
structure Request where
  method : String
  url : String
  timeout : Option Nat
  deriving DecidableEq, Repr

/-- The second argument of `console.error("Erro na API:", ...)`. -/
inductive ConsoleArg where
  | text (s : String)
  | object (e : JsError)
  deriving DecidableEq, Repr

/-- State of `WelcomePage` (`sessionData`, `loading`, `isLoading`) and the log of every call
made to the collaborators, oldest first. -/
structure Page where
  sessionData : Option SessionInfo
  loading : Bool
  isLoading : Bool
  requests : List Request
  consoleErrors : List ConsoleArg
  toasts : List Toast
  timers : List Timer
  navigations : List String
  deriving DecidableEq, Repr

/-- The page as `useState` initialises it, before any effect has run. -/
def Page.initial : Page :=
  { sessionData := none, loading := true, isLoading := true, requests := [],
    consoleErrors := [], toasts := [], timers := [], navigations := [] }

/-- How an `async` function ended: `thrown = none` is normal completion, `some e` is a
rejection with `e`. -/
structure Outcome where
  page : Page
  thrown : Option JsError
  deriving DecidableEq, Repr

/-- What the awaited `axiosInstance.get` settles with: a response whose `data` is an object
(`some`) or missing (`none`), or a rejection. -/
inductive GetOutcome where
  | resolved (data : Option SessionInfo)
  | rejected (e : JsError)
  deriving DecidableEq, Repr

/-- What the awaited `axiosInstance.post` settles with; the response is not inspected. -/
inductive PostOutcome where
  | resolved
  | rejected (e : JsError)
  deriving DecidableEq, Repr

/-- Running a timer callback when its delay has elapsed. -/
def Callback.run : Callback → Page → Page
  | .routerPush path, p => { p with navigations := p.navigations ++ [path] }
  | .setIsLoading b, p => { p with isLoading := b }

/-! ## `checkSession` -/

/-- Lines 18-24, the `try` block after the request has settled. -/
def tryBlock (outcome : GetOutcome) (p : Page) : Except JsError Page :=
  match outcome with
  | .rejected e => .error e
  | .resolved none => .error (typeErrorReading "valid")
  | .resolved (some data) =>
    if !data.valid.truthy then
      .error (newError "Sessão inválida")
    else
      .ok { p with sessionData := some data }

/-- Lines 28-39: the message chosen for a caught error.  The last branch calls
`error.message.includes`, which raises a `TypeError` when `error.message` is absent. -/
def resolveErrorMessage (messages : Messages) (error : JsError) :
    Except JsError (Option String) :=
  let errorMessage := messages.errorKey (·.server_error)
  match error.response with
  | some response =>
    if response.status = 404 then
      .ok (messages.errorKey (·.session_not_found))
    else if response.status = 500 then
      .ok (messages.errorKey (·.server_error))
    else
      .ok errorMessage
  | none =>
    if error.code = some "ECONNABORTED" then
      .ok (messages.errorKey (·.server_timeout))
    else
      match error.message with
      | none => .error (typeErrorReading "includes")
      | some text =>
        if includes text "Network Error" then
          .ok (messages.errorKey (·.server_unavailable))
        else
          .ok errorMessage

/-- The expression `error.message || error` of line 26. -/
def consoleArg (error : JsError) : ConsoleArg :=
  match error.message with
  | some text => if text != "" then .text text else .object error
  | none => .object error

/-- Lines 25-42, the `catch` block. -/
def catchBlock (messages : Messages) (error : JsError) (p : Page) : Outcome :=
  let p := { p with consoleErrors := p.consoleErrors ++ [consoleArg error] }
  match resolveErrorMessage messages error with
  | .error e => { page := p, thrown := some e }
  | .ok errorMessage =>
    let p := { p with toasts := p.toasts ++ [Toast.error errorMessage] }
    let p := { p with timers := p.timers ++ [{ callback := .routerPush "/auth", delay := 2000 }] }
    { page := p, thrown := none }

/-- Lines 43-46, the `finally` block; it keeps the completion of what ran before it. -/
def finallyBlock (o : Outcome) : Outcome :=
  let p := { o.page with loading := false }
  let p := { p with timers := p.timers ++ [{ callback := .setIsLoading false, delay := 1000 }] }
  { page := p, thrown := o.thrown }

/-- The async function `checkSession` of the mount effect, lines 16-47. -/
def checkSession (messages : Messages) (outcome : GetOutcome) (p : Page) : Outcome :=
  let p := { p with requests := p.requests ++
    [{ method := "GET", url := "/api/session", timeout := some 5000 }] }
  match tryBlock outcome p with
  | .ok p => finallyBlock { page := p, thrown := none }
  | .error e => finallyBlock (catchBlock messages e p)

/-! ## `handleLogout` -/

/-- The async handler `handleLogout`, lines 52-56.  A rejected `await` leaves the function
at once: nothing catches it. -/
def handleLogout (messages : Messages) (outcome : PostOutcome) (p : Page) : Outcome :=
  let p := { p with requests := p.requests ++
    [{ method := "POST", url := "/api/logout", timeout := none }] }
  match outcome with
  | .rejected e => { page := p, thrown := some e }
  | .resolved =>
    let p := { p with toasts := p.toasts ++ [Toast.info (messages.authKey (·.logout_success))] }
    let p := { p with navigations := p.navigations ++ ["/auth"] }
    { page := p, thrown := none }

/-! ## Rendering of the session panel -/

/-- What `WelcomePage` returns, lines 58-95, reduced to the text it shows. -/
inductive View where
  | splash
  | userPanel (label : Option String) (username : String) (token : String)
  | sessionExpired (text : Option String)
  deriving DecidableEq, Repr

/-- The JSX of `WelcomePage`: the overlay while `isLoading`, then the user panel when
`sessionData` is set and the expired-session paragraph otherwise. -/
def render (messages : Messages) (p : Page) : View :=
  if p.isLoading then .splash
  else
    match p.sessionData with
    | some sessionData =>
      .userPanel (messages.welcomeKey (·.user_label)) sessionData.user.username
        sessionData.token
    | none => .sessionExpired (messages.welcomeKey (·.session_expired))

/-! ## `Math.random()`, `*` and `Math.floor` on binary64 values -/

/-- A binary64 value in `[0, 1)`, the range of `Math.random()`: the number
`mant / 2 ^ expo` with a significand of at most 53 bits and an exponent no smaller than that
of the least subnormal, `2 ^ (-1074)`. -/
structure UnitDouble where
  mant : Nat
  expo : Nat
  mant_lt : mant < 2 ^ 53
  expo_le : expo ≤ 1074
  lt_one : mant < 2 ^ expo

/-- A non-negative dyadic rational `num / 2 ^ expo`, the value of a finite binary64. -/
structure Dyadic where
  num : Nat
  expo : Nat
  deriving DecidableEq, Repr

/-- The integer nearest to `m / 2 ^ s`, ties going to the even one (the default rounding
of binary64 arithmetic). -/
def roundNearestEven (m s : Nat) : Nat :=
  let q := m / 2 ^ s
  let r := m % 2 ^ s
  if 2 * r < 2 ^ s then q
  else if 2 ^ s < 2 * r then q + 1
  else if q % 2 = 0 then q
  else q + 1

/-- The product `r * n` of JavaScript for a small positive integer `n`: the exact product
`mant * n / 2 ^ expo`, its significand rounded to 53 bits when it has more.  A product that
needs rounding is at least `2 ^ 53 / 2 ^ 1074`, a normal number, so 53 bits is its
precision, and a product below `2 ^ 53 / 2 ^ expo` is representable as it stands. -/
def UnitDouble.mul (r : UnitDouble) (n : Nat) : Dyadic :=
  let m := r.mant * n
  let s := Nat.size m - 53
  { num := roundNearestEven m s * 2 ^ s, expo := r.expo }

/-- The call `Math.floor(x)` for a non-negative `x`. -/
def mathFloor (x : Dyadic) : Nat :=
  x.num / 2 ^ x.expo

/-! ## `WouldYouRather` -/

/-- The constant `questions`, lines 102-121. -/
def questions : List (String × String) :=
  [ ("Fight 100 duck-sized horses", "Fight 1 horse-sized duck"),
    ("Always be 10 minutes late", "Always be 20 minutes early"),
    ("Have no internet for a month", "Have no snacks for a year"),
    ("Only eat pizza forever", "Never eat pizza again"),
    ("Always have to sing instead of talk 🎤", "Dance instead of walk? 💃"),
    ("Have spaghetti for hair 🍝", "Marshmallows for fingers? 🍡"),
    ("Always sneeze glitter ✨", "Always fart confetti? 🎊"),
    ("Be able to speak to animals 🦜", "Read minds? 🧠"),
    ("Have a rewind button ⏪", "A pause button ⏸ for your life?"),
    ("Never use a phone again 📵", "Never watch TV/movies again? 📺"),
    ("Live without music 🎵", "Live without books? 📖"),
    ("Have no elbows 🚫💪", "No knees? 🚫🦵"),
    ("Be rich but bored 💰😐", "Poor but always entertained? 😆"),
    ("Have unlimited ice cream 🍦 but no cake 🎂", "Unlimited cake but no ice cream?"),
    ("Drink only water forever 💧", "Only soda forever? 🥤"),
    ("Fly but only 2 feet off the ground ✈️", "Be invisible but only for 10 seconds?"),
    ("Be super strong 💪 but slow 🐢 ", "Super fast ⚡ but weak?"),
    ("Teleport anywhere 🌍 but only once per week", "Run at 100mph but never stop running?") ]

/-- State of `WouldYouRather`: `question` and `percentages`, `none` for `null` and for
`undefined`. -/
structure Game where
  question : Option (String × String)
  percentages : Option (List Int)
  deriving DecidableEq, Repr

/-- The handler `generateQuestion`, lines 123-127, `random` being the value `Math.random()`
returns.  An index outside the array reads as `undefined`. -/
def generateQuestion (random : UnitDouble) (g : Game) : Game :=
  let g := { g with percentages := none }
  let randomQuestion := questions[mathFloor (random.mul questions.length)]?
  { g with question := randomQuestion }

/-- The handler `handleChoice`, lines 129-133. -/
def handleChoice (choiceIndex : Nat) (random : UnitDouble) (g : Game) : Game :=
  let first : Int := mathFloor (random.mul 100)
  let second : Int := 100 - first
  { g with percentages := some (if choiceIndex = 0 then [first, second] else [second, first]) }

/-! ## Sample inputs -/

/-- A message provider with every key present. -/
def sampleMessages : Messages :=
  { error := some
      { server_error := some "Erro no servidor",
        session_not_found := some "Sessão não encontrada",
        server_timeout := some "Tempo limite excedido",
        server_unavailable := some "Servidor indisponível" },
    auth := some { logout_success := some "Sessão terminada", logout_button := some "Sair" },
    welcome := some
      { user_label := some "Utilizador:", session_expired := some "Sessão expirada" } }

/-- A valid session payload. -/
def sampleSession : SessionInfo :=
  { valid := .bool true, user := { username := "afonso" }, token := "eyJhbGciOiJIUzI1NiJ9" }

/-- The value `0.5`. -/
def half : UnitDouble :=
  { mant := 1, expo := 1, mant_lt := by norm_num, expo_le := by norm_num,
    lt_one := by norm_num }

/-- The draw `⌈64 i / 18⌉ / 64`, which selects index `i`. -/
def drawFor (i : Fin 18) : UnitDouble :=
  { mant := (64 * i.val + 17) / 18, expo := 6,
    mant_lt := by have := i.isLt; omega,
    expo_le := by norm_num,
    lt_one := by have := i.isLt; omega }

/-- The timers a handled failure leaves behind: the redirect, then the splash clear. -/
def failureTimers : List Timer :=
  [{ callback := .routerPush "/auth", delay := 2000 },
   { callback := .setIsLoading false, delay := 1000 }]

/-! ## Lemmas on `includes` -/

theorem startsWith_iff (pat text : List Char) :
    startsWith pat text = true ↔ ∃ rest, text = pat ++ rest := by
  induction pat generalizing text with
  | nil => simp [startsWith]
  | cons p ps ih =>
    cases text with
    | nil => simp [startsWith]
    | cons c cs =>
      simp only [startsWith, Bool.and_eq_true, beq_iff_eq, ih, List.cons_append,
        List.cons.injEq]
      constructor
      · rintro ⟨rfl, rest, rfl⟩
        exact ⟨rest, rfl, rfl⟩
      · rintro ⟨rest, rfl, rfl⟩
        exact ⟨rfl, rest, rfl⟩

theorem includesChars_iff (pat text : List Char) :
    includesChars pat text = true ↔ ∃ before after, text = before ++ pat ++ after := by
  induction text with
  | nil =>
    simp only [includesChars, startsWith_iff]
    constructor
    · rintro ⟨rest, h⟩
      exact ⟨[], rest, by simpa using h⟩
    · rintro ⟨before, after, h⟩
      have h1 : before ++ pat ++ after = [] := h.symm
      simp only [List.append_eq_nil] at h1
      exact ⟨[], by simp [h1.1.2]⟩
  | cons c cs ih =>
    simp only [includesChars, Bool.or_eq_true, startsWith_iff, ih]
    constructor
    · rintro (⟨rest, h⟩ | ⟨before, after, h⟩)
      · exact ⟨[], rest, by simpa using h⟩
      · exact ⟨c :: before, after, by simp [h]⟩
    · rintro ⟨before, after, h⟩
      cases before with
      | nil => exact Or.inl ⟨after, by simpa using h⟩
      | cons b bs =>
        simp only [List.cons_append, List.cons.injEq] at h
        exact Or.inr ⟨bs, after, h.2⟩

/-- The model of `includes` is substring containment. -/
theorem includes_iff (s pat : String) :
    includes s pat = true ↔ ∃ before after : String, s = before ++ pat ++ after := by
  unfold includes
  rw [includesChars_iff]
  constructor
  · rintro ⟨before, after, h⟩
    exact ⟨⟨before⟩, ⟨after⟩, by apply String.ext; simpa using h⟩
  · rintro ⟨before, after, h⟩
    exact ⟨before.data, after.data, by simp [h]⟩

/-! ## Lemmas on the rounded product -/

theorem roundNearestEven_mul_le (m s : Nat) :
    roundNearestEven m s * 2 ^ s ≤ m + 2 ^ s / 2 := by
  have hm : 2 ^ s * (m / 2 ^ s) + m % 2 ^ s = m := Nat.div_add_mod m (2 ^ s)
  unfold roundNearestEven
  generalize 2 ^ s = t at hm ⊢
  generalize hq : m / t = q at hm ⊢
  generalize hr : m % t = r at hm ⊢
  have hc : q * t = t * q := Nat.mul_comm q t
  have hs : (q + 1) * t = t * q + t := by rw [Nat.add_mul, Nat.one_mul, hc]
  simp only []
  split_ifs <;> omega

theorem size_mul_le (a n k : Nat) (ha : a < 2 ^ 53) (hk : n ≤ 2 ^ k) :
    Nat.size (a * n) - 53 ≤ k := by
  have h1 : a * n < 2 ^ (53 + k) := by
    rw [pow_add]
    calc a * n ≤ a * 2 ^ k := Nat.mul_le_mul_left a hk
      _ < 2 ^ 53 * 2 ^ k := Nat.mul_lt_mul_of_pos_right ha (by positivity)
  have h2 : Nat.size (a * n) ≤ 53 + k := Nat.size_le.mpr h1
  omega

/-- The value `Math.floor(Math.random() * n)` is below `n` for every draw, for an `n` that
is not a power of two (`2 ^ k / 2 < n ≤ 2 ^ k`). -/
theorem mathFloor_mul_lt (r : UnitDouble) (n k : Nat) (hk : n ≤ 2 ^ k) (hn : 2 ^ k < 2 * n) :
    mathFloor (r.mul n) < n := by
  unfold mathFloor UnitDouble.mul
  simp only []
  apply Nat.div_lt_of_lt_mul
  have hs : Nat.size (r.mant * n) - 53 ≤ k := size_mul_le r.mant n k r.mant_lt hk
  have hpow : 2 ^ (Nat.size (r.mant * n) - 53) ≤ 2 ^ k := Nat.pow_le_pow_right (by norm_num) hs
  have hround := roundNearestEven_mul_le (r.mant * n) (Nat.size (r.mant * n) - 53)
  have hone : r.mant + 1 ≤ 2 ^ r.expo := r.lt_one
  have hprod : (r.mant + 1) * n ≤ 2 ^ r.expo * n := Nat.mul_le_mul_right n hone
  rw [Nat.add_mul, Nat.one_mul] at hprod
  omega

/-- A product with fewer than 54 significant bits is exact. -/
theorem mathFloor_mul_exact (r : UnitDouble) (n : Nat) (h : r.mant * n < 2 ^ 53) :
    mathFloor (r.mul n) = r.mant * n / 2 ^ r.expo := by
  have hs : Nat.size (r.mant * n) - 53 = 0 := by
    have := Nat.size_le.mpr h
    omega
  simp [mathFloor, UnitDouble.mul, hs, roundNearestEven, Nat.mod_one]

/-! ## `checkSession`: the message chosen for a failure -/

/-- Whenever `resolveErrorMessage` yields a message, `checkSession` handles the failure:
it completes normally after one request, one error notification carrying that message and
one redirect timer, and leaves `sessionData` alone. -/
theorem checkSession_rejected_of_resolve (messages : Messages) (p : Page) (error : JsError)
    (text : Option String) (h : resolveErrorMessage messages error = .ok text) :
    checkSession messages (.rejected error) p =
      { page :=
          { p with
            loading := false
            requests := p.requests ++
              [{ method := "GET", url := "/api/session", timeout := some 5000 }]
            consoleErrors := p.consoleErrors ++ [consoleArg error]
            toasts := p.toasts ++ [Toast.error text]
            timers := p.timers ++ failureTimers },
        thrown := none } := by
  simp [checkSession, tryBlock, catchBlock, finallyBlock, h, failureTimers]

/-- C1: a session-check failure whose error carries an HTTP response with status 404, whatever
its code and message are, makes `checkSession` show `messages.error?.session_not_found` as
the one error notification and schedule `router.push("/auth")` with a delay of 2000 ms;
when that timer fires the page navigates to `/auth`. -/
theorem checkSession_not_found (messages : Messages) (p : Page) (error : JsError)
    (response : HttpResponse) (hresponse : error.response = some response)
    (hstatus : response.status = 404) :
    (checkSession messages (.rejected error) p).thrown = none ∧
    (checkSession messages (.rejected error) p).page.toasts =
      p.toasts ++ [Toast.error (messages.errorKey (·.session_not_found))] ∧
    (checkSession messages (.rejected error) p).page.timers =
      p.timers ++ [{ callback := .routerPush "/auth", delay := 2000 },
                   { callback := .setIsLoading false, delay := 1000 }] ∧
    ((Callback.routerPush "/auth").run (checkSession messages (.rejected error) p).page).navigations
      = p.navigations ++ ["/auth"] := by
  have h : resolveErrorMessage messages error = .ok (messages.errorKey (·.session_not_found)) := by
    simp [resolveErrorMessage, hresponse, hstatus]
  rw [checkSession_rejected_of_resolve messages p error _ h]
  simp [failureTimers, Callback.run]

theorem checkSession_not_found_witness :
    (⟨some ⟨404⟩, some "ECONNABORTED", some "Network Error"⟩ : JsError).response = some ⟨404⟩ ∧
    (⟨404⟩ : HttpResponse).status = 404 ∧
    (checkSession sampleMessages
      (.rejected ⟨some ⟨404⟩, some "ECONNABORTED", some "Network Error"⟩) Page.initial).page.toasts
      = [Toast.error (some "Sessão não encontrada")] ∧
    (checkSession sampleMessages
      (.rejected ⟨some ⟨404⟩, some "ECONNABORTED", some "Network Error"⟩) Page.initial).page.timers
      = [{ callback := .routerPush "/auth", delay := 2000 },
         { callback := .setIsLoading false, delay := 1000 }] :=
  ⟨rfl, rfl,
    (checkSession_not_found sampleMessages Page.initial
      ⟨some ⟨404⟩, some "ECONNABORTED", some "Network Error"⟩ ⟨404⟩ rfl rfl).2.1,
    (checkSession_not_found sampleMessages Page.initial
      ⟨some ⟨404⟩, some "ECONNABORTED", some "Network Error"⟩ ⟨404⟩ rfl rfl).2.2.1⟩

/-- C2: for a failure with no HTTP response and code `"ECONNABORTED"` the message shown by
`checkSession` is `messages.error?.server_timeout`, whatever the message text is (a text
containing `"Network Error"` included).  With an HTTP response present the code is not
looked at: the message is the one the status selects, hence not the timeout message
whenever the provider's timeout text differs from those two. -/
theorem checkSession_timeout (messages : Messages) (p : Page) (error : JsError) :
    (error.response = none → error.code = some "ECONNABORTED" →
      (checkSession messages (.rejected error) p).page.toasts =
        p.toasts ++ [Toast.error (messages.errorKey (·.server_timeout))]) ∧
    (∀ response, error.response = some response →
      (checkSession messages (.rejected error) p).page.toasts =
        p.toasts ++ [Toast.error (if response.status = 404
          then messages.errorKey (·.session_not_found)
          else messages.errorKey (·.server_error))]) ∧
    (∀ response, error.response = some response →
      messages.errorKey (·.server_timeout) ≠ messages.errorKey (·.session_not_found) →
      messages.errorKey (·.server_timeout) ≠ messages.errorKey (·.server_error) →
      (checkSession messages (.rejected error) p).page.toasts ≠
        p.toasts ++ [Toast.error (messages.errorKey (·.server_timeout))]) := by
  have hpresent : ∀ response, error.response = some response →
      (checkSession messages (.rejected error) p).page.toasts =
        p.toasts ++ [Toast.error (if response.status = 404
          then messages.errorKey (·.session_not_found)
          else messages.errorKey (·.server_error))] := by
    intro response hresponse
    have h : resolveErrorMessage messages error = .ok (if response.status = 404
        then messages.errorKey (·.session_not_found)
        else messages.errorKey (·.server_error)) := by
      simp only [resolveErrorMessage, hresponse]
      split_ifs <;> rfl
    rw [checkSession_rejected_of_resolve messages p error _ h]
  refine ⟨?_, hpresent, ?_⟩
  · intro hresponse hcode
    have h : resolveErrorMessage messages error = .ok (messages.errorKey (·.server_timeout)) := by
      simp [resolveErrorMessage, hresponse, hcode]
    rw [checkSession_rejected_of_resolve messages p error _ h]
  · intro response hresponse hne1 hne2
    rw [hpresent response hresponse]
    intro heq
    have heq2 := List.append_cancel_left heq
    simp only [List.cons.injEq, Toast.error.injEq, and_true] at heq2
    split_ifs at heq2
    · exact hne1 heq2.symm
    · exact hne2 heq2.symm

theorem checkSession_timeout_witness :
    (⟨none, some "ECONNABORTED", some "Network Error"⟩ : JsError).response = none ∧
    (⟨none, some "ECONNABORTED", some "Network Error"⟩ : JsError).code = some "ECONNABORTED" ∧
    (checkSession sampleMessages
      (.rejected ⟨none, some "ECONNABORTED", some "Network Error"⟩) Page.initial).page.toasts
      = [Toast.error (some "Tempo limite excedido")] ∧
    (checkSession sampleMessages
      (.rejected ⟨some ⟨500⟩, some "ECONNABORTED", none⟩) Page.initial).page.toasts
      ≠ [Toast.error (some "Tempo limite excedido")] :=
  ⟨rfl, rfl,
    (checkSession_timeout sampleMessages Page.initial
      ⟨none, some "ECONNABORTED", some "Network Error"⟩).1 rfl rfl,
    (checkSession_timeout sampleMessages Page.initial
      ⟨some ⟨500⟩, some "ECONNABORTED", none⟩).2.2 ⟨500⟩ rfl (by decide) (by decide)⟩

/-- C3: for a failure with no HTTP response, a code other than `"ECONNABORTED"` and a message
text that contains `"Network Error"`, the message shown by `checkSession` is
`messages.error?.server_unavailable`. -/
theorem checkSession_network_error (messages : Messages) (p : Page) (error : JsError)
    (text : String) (hresponse : error.response = none)
    (hcode : error.code ≠ some "ECONNABORTED") (hmessage : error.message = some text)
    (htext : ∃ before after : String, text = before ++ "Network Error" ++ after) :
    (checkSession messages (.rejected error) p).page.toasts =
      p.toasts ++ [Toast.error (messages.errorKey (·.server_unavailable))] := by
  have hinc : includes text "Network Error" = true := (includes_iff _ _).mpr htext
  have h : resolveErrorMessage messages error =
      .ok (messages.errorKey (·.server_unavailable)) := by
    simp [resolveErrorMessage, hresponse, hcode, hmessage, hinc]
  rw [checkSession_rejected_of_resolve messages p error _ h]

theorem checkSession_network_error_witness :
    (⟨none, some "ERR_NETWORK", some "AxiosError: Network Error"⟩ : JsError).response = none ∧
    (⟨none, some "ERR_NETWORK", some "AxiosError: Network Error"⟩ : JsError).code
      ≠ some "ECONNABORTED" ∧
    (∃ before after : String, "AxiosError: Network Error" = before ++ "Network Error" ++ after) ∧
    (checkSession sampleMessages
      (.rejected ⟨none, some "ERR_NETWORK", some "AxiosError: Network Error"⟩)
      Page.initial).page.toasts = [Toast.error (some "Servidor indisponível")] :=
  ⟨rfl, by decide, ⟨"AxiosError: ", "", by decide⟩,
    checkSession_network_error sampleMessages Page.initial
      ⟨none, some "ERR_NETWORK", some "AxiosError: Network Error"⟩ "AxiosError: Network Error"
      rfl (by decide) rfl ⟨"AxiosError: ", "", by decide⟩⟩

/-- C4: for a failure that carries an HTTP response whose status is not 404 (500, 401, 503,
any other), the message shown by `checkSession` is `messages.error?.server_error`, whatever
the error code and the message text are, absent text included. -/
theorem checkSession_server_error (messages : Messages) (p : Page) (error : JsError)
    (response : HttpResponse) (hresponse : error.response = some response)
    (hstatus : response.status ≠ 404) :
    (checkSession messages (.rejected error) p).thrown = none ∧
    (checkSession messages (.rejected error) p).page.toasts =
      p.toasts ++ [Toast.error (messages.errorKey (·.server_error))] := by
  have h : resolveErrorMessage messages error = .ok (messages.errorKey (·.server_error)) := by
    simp only [resolveErrorMessage, hresponse, if_neg hstatus]
    split_ifs <;> rfl
  rw [checkSession_rejected_of_resolve messages p error _ h]
  exact ⟨rfl, rfl⟩

theorem checkSession_server_error_witness :
    (⟨some ⟨503⟩, some "ECONNABORTED", some "Network Error"⟩ : JsError).response = some ⟨503⟩ ∧
    (⟨503⟩ : HttpResponse).status ≠ 404 ∧
    (checkSession sampleMessages
      (.rejected ⟨some ⟨503⟩, some "ECONNABORTED", some "Network Error"⟩) Page.initial).page.toasts
      = [Toast.error (some "Erro no servidor")] :=
  ⟨rfl, by decide,
    (checkSession_server_error sampleMessages Page.initial
      ⟨some ⟨503⟩, some "ECONNABORTED", some "Network Error"⟩ ⟨503⟩ rfl (by decide)).2⟩

/-! ## `checkSession`: failures as a whole -/

/-- A message is chosen exactly when the error has a response, the timeout code, or a
message text; the one remaining case raises from inside the `catch` block. -/
theorem resolveErrorMessage_isOk_iff (messages : Messages) (error : JsError) :
    (∃ text, resolveErrorMessage messages error = .ok text) ↔
      (error.response ≠ none ∨ error.code = some "ECONNABORTED" ∨ error.message ≠ none) := by
  unfold resolveErrorMessage
  cases hresponse : error.response with
  | some response =>
    simp only [ne_eq, reduceCtorEq, not_false_eq_true, true_or, iff_true]
    split_ifs <;> exact ⟨_, rfl⟩
  | none =>
    by_cases hcode : error.code = some "ECONNABORTED"
    · simp [hcode]
    · cases hmessage : error.message with
      | none => simp [hcode]
      | some text =>
        simp only [hcode, if_false, ne_eq, not_true_eq_false, false_or, reduceCtorEq,
          not_false_eq_true, iff_true]
        split_ifs <;> exact ⟨_, rfl⟩

/-- C5, the code at the failing input: a rejection whose error has no response, no code and
no message text.  `error.message.includes` raises a `TypeError` inside the `catch` block, so
`checkSession` rejects with it, having shown no notification and scheduled no navigation;
only the `finally` block has run. -/
theorem checkSession_absent_message (messages : Messages) :
    (checkSession messages (.rejected ⟨none, none, none⟩) Page.initial).thrown =
      some (typeErrorReading "includes") ∧
    (checkSession messages (.rejected ⟨none, none, none⟩) Page.initial).page.toasts = [] ∧
    (checkSession messages (.rejected ⟨none, none, none⟩) Page.initial).page.timers =
      [{ callback := .setIsLoading false, delay := 1000 }] ∧
    (checkSession messages (.rejected ⟨none, none, none⟩) Page.initial).page.navigations = [] := by
  simp [checkSession, tryBlock, catchBlock, finallyBlock, resolveErrorMessage, Page.initial]

/-! ## `handleLogout` -/

/-- C6, counterexample: when the logout request rejects, `handleLogout` rejects with the same
error and no navigation to `/auth` is triggered, at once or through a timer. -/
theorem handleLogout_rejected_no_navigation :
    (handleLogout sampleMessages (.rejected (newError "Network Error")) Page.initial).thrown =
      some (newError "Network Error") ∧
    "/auth" ∉
      (handleLogout sampleMessages (.rejected (newError "Network Error")) Page.initial).page.navigations ∧
    (handleLogout sampleMessages (.rejected (newError "Network Error")) Page.initial).page.timers
      = [] := by
  simp [handleLogout, Page.initial]

/-- C6, amended: after `handleLogout` issues the POST to `/api/logout`, a navigation to `/auth`
is triggered when the request succeeds, following the `logout_success` notification; when the
request rejects, `handleLogout` rejects with that error and the page is unchanged apart from
the request: no notification, no navigation, no timer. -/
theorem handleLogout_navigates_on_success (messages : Messages) (p : Page) :
    (handleLogout messages .resolved p).thrown = none ∧
    (handleLogout messages .resolved p).page =
      { p with
        requests := p.requests ++ [{ method := "POST", url := "/api/logout", timeout := none }]
        toasts := p.toasts ++ [Toast.info (messages.authKey (·.logout_success))]
        navigations := p.navigations ++ ["/auth"] } ∧
    (∀ e : JsError,
      (handleLogout messages (.rejected e) p).thrown = some e ∧
      (handleLogout messages (.rejected e) p).page =
        { p with
          requests := p.requests ++
            [{ method := "POST", url := "/api/logout", timeout := none }] }) := by
  simp [handleLogout]

/-! ## `handleChoice` -/

/-- C7: for `choiceIndex` 0 or 1 and every draw, `handleChoice` sets the split to two integers
`[p0, p1]` with `p0 + p1 = 100`; the entry at `choiceIndex` is the drawn
`first = Math.floor(Math.random() * 100)`, which lies in `0..99`, and the other entry is
`100 - first`, which lies in `1..100`.  The question is left as it was. -/
theorem handleChoice_split (choiceIndex : Nat) (random : UnitDouble) (g : Game)
    (hchoice : choiceIndex = 0 ∨ choiceIndex = 1) :
    ∃ first p0 p1 : Int,
      first = (mathFloor (random.mul 100) : Nat) ∧ 0 ≤ first ∧ first ≤ 99 ∧
      (handleChoice choiceIndex random g).percentages = some [p0, p1] ∧
      (handleChoice choiceIndex random g).question = g.question ∧
      p0 + p1 = 100 ∧
      [p0, p1][choiceIndex]? = some first ∧
      [p0, p1][1 - choiceIndex]? = some (100 - first) ∧
      1 ≤ 100 - first ∧ 100 - first ≤ 100 := by
  have hlt : mathFloor (random.mul 100) < 100 :=
    mathFloor_mul_lt random 100 7 (by norm_num) (by norm_num)
  rcases hchoice with rfl | rfl
  · refine ⟨(mathFloor (random.mul 100) : Nat), (mathFloor (random.mul 100) : Nat),
      100 - (mathFloor (random.mul 100) : Nat), rfl, ?_, ?_, ?_, rfl, ?_, ?_, ?_, ?_, ?_⟩ <;>
      first | omega | simp [handleChoice]
  · refine ⟨(mathFloor (random.mul 100) : Nat), 100 - (mathFloor (random.mul 100) : Nat),
      (mathFloor (random.mul 100) : Nat), rfl, ?_, ?_, ?_, rfl, ?_, ?_, ?_, ?_, ?_⟩ <;>
      first | omega | simp [handleChoice]

theorem handleChoice_split_witness :
    ((1 : Nat) = 0 ∨ (1 : Nat) = 1) ∧
    ∃ first p0 p1 : Int,
      first = (mathFloor (half.mul 100) : Nat) ∧ 0 ≤ first ∧ first ≤ 99 ∧
      (handleChoice 1 half ⟨none, none⟩).percentages = some [p0, p1] ∧
      (handleChoice 1 half ⟨none, none⟩).question = (⟨none, none⟩ : Game).question ∧
      p0 + p1 = 100 ∧
      [p0, p1][1]? = some first ∧
      [p0, p1][1 - 1]? = some (100 - first) ∧
      1 ≤ 100 - first ∧ 100 - first ≤ 100 :=
  ⟨Or.inr rfl, handleChoice_split 1 half ⟨none, none⟩ (Or.inr rfl)⟩

/-! ## `checkSession`: the response has arrived -/

/-- C8: for a response whose `valid` field is `true`, `checkSession` completes normally, stores
the payload itself as `sessionData`, shows no notification, navigates nowhere, and schedules
one timer only, the 1000 ms splash clear; once that timer has fired the page renders the
payload's `user.username` and `token` as they came. -/
theorem checkSession_valid (messages : Messages) (p : Page) (data : SessionInfo)
    (hvalid : data.valid = .bool true) :
    (checkSession messages (.resolved (some data)) p).thrown = none ∧
    (checkSession messages (.resolved (some data)) p).page.sessionData = some data ∧
    (checkSession messages (.resolved (some data)) p).page.toasts = p.toasts ∧
    (checkSession messages (.resolved (some data)) p).page.navigations = p.navigations ∧
    (checkSession messages (.resolved (some data)) p).page.timers =
      p.timers ++ [{ callback := .setIsLoading false, delay := 1000 }] ∧
    (checkSession messages (.resolved (some data)) p).page.requests =
      p.requests ++ [{ method := "GET", url := "/api/session", timeout := some 5000 }] ∧
    render messages
        ((Callback.setIsLoading false).run (checkSession messages (.resolved (some data)) p).page) =
      .userPanel (messages.welcomeKey (·.user_label)) data.user.username data.token := by
  simp [checkSession, tryBlock, finallyBlock, hvalid, JsPrim.truthy, render, Callback.run]

theorem checkSession_valid_witness :
    sampleSession.valid = .bool true ∧
    (checkSession sampleMessages (.resolved (some sampleSession)) Page.initial).page.sessionData =
      some sampleSession ∧
    (checkSession sampleMessages (.resolved (some sampleSession)) Page.initial).page.toasts = [] ∧
    (checkSession sampleMessages (.resolved (some sampleSession)) Page.initial).page.timers =
      [{ callback := .setIsLoading false, delay := 1000 }] ∧
    render sampleMessages ((Callback.setIsLoading false).run
        (checkSession sampleMessages (.resolved (some sampleSession)) Page.initial).page) =
      .userPanel (some "Utilizador:") "afonso" "eyJhbGciOiJIUzI1NiJ9" :=
  ⟨rfl,
    (checkSession_valid sampleMessages Page.initial sampleSession rfl).2.1,
    (checkSession_valid sampleMessages Page.initial sampleSession rfl).2.2.1,
    (checkSession_valid sampleMessages Page.initial sampleSession rfl).2.2.2.2.1,
    (checkSession_valid sampleMessages Page.initial sampleSession rfl).2.2.2.2.2.2⟩

/-- C9: for a response whose `valid` field is falsy, the `try` block raises an error with no
response, no code and the text `"Sessão inválida"`; `checkSession` does not store the payload
(`sessionData` keeps its value, `null` on mount), shows `messages.error?.server_error` as the
one notification, schedules the redirect to `/auth` at 2000 ms and completes normally. -/
theorem checkSession_invalid (messages : Messages) (p : Page) (data : SessionInfo)
    (hvalid : data.valid.truthy = false) :
    tryBlock (.resolved (some data)) p =
      .error { response := none, code := none, message := some "Sessão inválida" } ∧
    (checkSession messages (.resolved (some data)) p).thrown = none ∧
    (checkSession messages (.resolved (some data)) p).page.sessionData = p.sessionData ∧
    (checkSession messages (.resolved (some data)) Page.initial).page.sessionData = none ∧
    (checkSession messages (.resolved (some data)) p).page.toasts =
      p.toasts ++ [Toast.error (messages.errorKey (·.server_error))] ∧
    (checkSession messages (.resolved (some data)) p).page.timers =
      p.timers ++ [{ callback := .routerPush "/auth", delay := 2000 },
                   { callback := .setIsLoading false, delay := 1000 }] := by
  have hinc : includes "Sessão inválida" "Network Error" = false := by decide
  simp [checkSession, tryBlock, catchBlock, finallyBlock, resolveErrorMessage, hvalid, newError,
    hinc, Page.initial]

theorem checkSession_invalid_witness :
    ({ sampleSession with valid := .bool false } : SessionInfo).valid.truthy = false ∧
    (checkSession sampleMessages
      (.resolved (some { sampleSession with valid := .bool false })) Page.initial).page.sessionData
      = none ∧
    (checkSession sampleMessages
      (.resolved (some { sampleSession with valid := .bool false })) Page.initial).page.toasts
      = [Toast.error (some "Erro no servidor")] :=
  ⟨rfl,
    (checkSession_invalid sampleMessages Page.initial
      { sampleSession with valid := .bool false } rfl).2.2.2.1,
    (checkSession_invalid sampleMessages Page.initial
      { sampleSession with valid := .bool false } rfl).2.2.2.2.1⟩

/-! ## `generateQuestion` -/

theorem mathFloor_drawFor (i : Fin 18) : mathFloor ((drawFor i).mul 18) = i.val := by
  have hi := i.isLt
  rw [mathFloor_mul_exact]
  · simp only [drawFor]
    omega
  · simp only [drawFor]
    omega

/-- C10: for every prior state and every draw `r`, `generateQuestion` sets the vote split to
`null` and the question to the catalog entry at index `Math.floor(r * 18)`; the catalog has
18 pairs and that index is below 18, so the question is a pair of two strings; and each of
the 18 indices is selected by some draw. -/
theorem generateQuestion_selects (random : UnitDouble) (g : Game) :
    questions.length = 18 ∧
    (generateQuestion random g).percentages = none ∧
    mathFloor (random.mul 18) < 18 ∧
    (generateQuestion random g).question = questions[mathFloor (random.mul 18)]? ∧
    (∃ a b : String, (generateQuestion random g).question = some (a, b)) ∧
    (∀ i : Fin 18, ∃ (r : UnitDouble) (a b : String),
      mathFloor (r.mul 18) = i.val ∧
      questions[i.val]? = some (a, b) ∧
      (generateQuestion r g).question = some (a, b)) := by
  have hlen : questions.length = 18 := by rfl
  have hlt : mathFloor (random.mul 18) < 18 :=
    mathFloor_mul_lt random 18 5 (by norm_num) (by norm_num)
  have hq : (generateQuestion random g).question = questions[mathFloor (random.mul 18)]? := by
    simp [generateQuestion, hlen]
  refine ⟨hlen, rfl, hlt, hq, ?_, ?_⟩
  · rw [hq, List.getElem?_eq_getElem (by rw [hlen]; exact hlt)]
    exact ⟨_, _, rfl⟩
  · intro i
    obtain ⟨⟨a, b⟩, hget⟩ : ∃ pair, questions[i.val]? = some pair :=
      ⟨_, List.getElem?_eq_getElem (by rw [hlen]; exact i.isLt)⟩
    refine ⟨drawFor i, a, b, mathFloor_drawFor i, hget, ?_⟩
    simp only [generateQuestion, hlen, mathFloor_drawFor]
    exact hget

end Welcome
